import Mathlib

/-!
Shallow embedding of `src/pg_backup.py` (a PostgreSQL-to-Google-Drive backup
pipeline).  Pure data is modelled directly; the interactions with the outside
world (the `pg_dump` subprocess, the tar/gz compressor, the Google Drive API,
the operator's console, the local filesystem) are modelled by explicit oracle
fields describing each external call's outcome, by an explicit Drive state,
and by a trace of observable events.  `sys.exit(n)` is modelled as
`Except.error n`; a run's observable outcome is a `RunResult`.
-/

namespace PgBackup

/-- One observable effect of a run.  Constructors cover every externally
visible action the script can take (and `driveShare`, the action the spec
describes for a share step, so that its absence can be stated). -/
inductive Event
  | mkTempDir
  | dumpInvoked
  | fsWrite (name : String)
  | fsRemove (name : String)
  | authPromptShown
  | authInputRead
  | tokenSaved
  | driveListFolders (name : String)
  | driveCreateFolder (name : String)
  | driveUpload (name : String)
  | driveShare (email : String)
  | pruneList
  | pruneDelete (id : String)
  | cleanupAttempt
  | logError (msg : String)
  | logWarn (msg : String)
deriving Repr, DecidableEq

/-- The process environment: an association list from variable names to
string values (a variable that is set to the empty string is present with
value `""`; an unset variable is absent). -/
abbrev EnvMap : Type := List (String × String)

/-- The raw lookup `os.environ.get(name)`: `none` when unset. -/
def envGet (env : EnvMap) (name : String) : Option String :=
  (List.find? (fun p => p.1 == name) env).map (fun p => p.2)

/-- Python truthiness of an optional string: `None` and `""` are falsy. -/
def falsy : Option String → Bool
  | none => true
  | some s => s == ""

/-- The resolver `get_env_or_default(var_name, default, required)` from pg_backup.py:
`value = os.environ.get(var_name, default)`; when `required` and `value` is
falsy the process exits with status 1 (modelled as `Except.error 1`). -/
def get_env_or_default (env : EnvMap) (varName : String) (dflt : Option String)
    (required : Bool) : Except Nat (Option String) :=
  let value : Option String :=
    match envGet env varName with
    | some s => some s
    | none => dflt
  if required && falsy value then .error 1 else .ok value

/-- The raw dump filename, `postgres_dump_` + timestamp + `.sql`. -/
def dumpFileName (ts : String) : String := "postgres_dump_" ++ ts ++ ".sql"

/-- The archive filename, `postgres_backup_` + timestamp + `.tar.gz`. -/
def backupFileName (ts : String) : String := "postgres_backup_" ++ ts ++ ".tar.gz"

/-- Contents of the run's temporary directory, as the list of regular-file
names it holds. -/
abbrev TempFS : Type := List String

/-- Creating a file in the temporary directory. -/
def fsAdd (fs : TempFS) (n : String) : TempFS := n :: fs

/-- Removal (`os.remove`) of a file in the temporary directory. -/
def fsErase (fs : TempFS) (n : String) : TempFS := List.filter (fun m => m != n) fs

/-- Outcome of the `pg_dump` subprocess: exit 0, or a non-zero exit carrying
the captured stderr text; `leavesFile` records whether the failed run left a
partial dump file behind (the script does not rely on either). -/
inductive DumpOutcome
  | ok
  | err (stderr : String) (leavesFile : Bool)
deriving Repr, DecidableEq

/-- The backup step `create_postgres_backup(temp_dir)`: resolves the required connection
settings (each may exit 1), runs `pg_dump`, compresses the dump into a
tar.gz (removing the raw dump on success), and on a compression failure
removes both the raw dump and the partial archive.  Returns
`.ok (some path)` on success, `.ok none` on a reported failure, and
`.error 1` when a required environment variable is missing, together with
the updated temporary-directory contents and the emitted events.
`compressOk` is the oracle for whether the tar/gz step succeeds. -/
def create_postgres_backup (env : EnvMap) (ts : String) (dump : DumpOutcome)
    (compressOk : Bool) (fs : TempFS) :
    Except Nat (Option String) × TempFS × List Event :=
  match get_env_or_default env "PGHOST" none true with
  | .error c => (.error c, fs, [Event.logError "Required environment variable PGHOST is not set"])
  | .ok _pgHost =>
  match get_env_or_default env "PGPORT" (some "5432") false with
  | .error c => (.error c, fs, [])
  | .ok _pgPort =>
  match get_env_or_default env "PGUSER" none true with
  | .error c => (.error c, fs, [Event.logError "Required environment variable PGUSER is not set"])
  | .ok _pgUser =>
  match get_env_or_default env "PGPASSWORD" none true with
  | .error c => (.error c, fs, [Event.logError "Required environment variable PGPASSWORD is not set"])
  | .ok _pgPassword =>
  match get_env_or_default env "PGDATABASE" none true with
  | .error c => (.error c, fs, [Event.logError "Required environment variable PGDATABASE is not set"])
  | .ok _pgDatabase =>
  match get_env_or_default env "PG_DUMP_CMD" (some "pg_dump") false with
  | .error c => (.error c, fs, [])
  | .ok _pgDumpCmd =>
  let dName := dumpFileName ts
  let cName := backupFileName ts
  match dump with
  | .err stderr leavesFile =>
      let fs1 := if leavesFile then fsAdd fs dName else fs
      (.ok none, fs1,
        [Event.dumpInvoked]
          ++ (if leavesFile then [Event.fsWrite dName] else [])
          ++ [Event.logError ("Backup failed: " ++ stderr)])
  | .ok =>
      let fs1 := fsAdd fs dName
      let fs2 := fsAdd fs1 cName
      let evs2 := [Event.dumpInvoked, Event.fsWrite dName, Event.fsWrite cName]
      if compressOk then
        (.ok (some cName), fsErase fs2 dName, evs2 ++ [Event.fsRemove dName])
      else
        (.ok none, fsErase (fsErase fs2 dName) cName,
          evs2 ++ [Event.logError "Error creating or compressing backup",
            Event.fsRemove dName, Event.fsRemove cName])

/-- The credential object the google-auth library hands back:
`valid`, `expired` and the presence of a refresh token are the only facts
`authenticate_google_drive` inspects. -/
structure StoredCreds where
  valid : Bool
  expired : Bool
  hasRefreshToken : Bool
deriving Repr, DecidableEq

/-- State of the persisted token file `token.json`: absent, present but
unparsable, or present and parsed into credentials. -/
inductive TokenFileState
  | absent
  | invalid
  | stored (c : StoredCreds)
deriving Repr, DecidableEq

/-- Oracles for the credential provider's external calls: the token file,
whether the refresh round-trip succeeds, whether the interactive OAuth flow
succeeds, and whether writing the token file back succeeds. -/
structure AuthWorld where
  tokenFile : TokenFileState
  refreshOk : Bool
  flowOk : Bool
  tokenSaveOk : Bool
deriving Repr, DecidableEq

/-- Python truthiness of `creds and creds.valid` over an optional credential. -/
def credValid : Option StoredCreds → Bool
  | none => false
  | some c => c.valid

/-- Loading `token.json` at the top of `authenticate_google_drive`. -/
def loadTokenFile : TokenFileState → Option StoredCreds × List Event
  | .absent => (none, [])
  | .invalid => (none, [Event.logWarn "Invalid token file, will create new one"])
  | .stored c => (some c, [])

/-- A successful `creds.refresh(Request())`: the credential becomes valid and
no longer expired; the refresh token is kept. -/
def refreshedCreds (c : StoredCreds) : StoredCreds := ⟨true, false, c.hasRefreshToken⟩

/-- The `if creds and creds.expired and creds.refresh_token:` refresh branch. -/
def refreshStep (refreshOk : Bool) : Option StoredCreds → Option StoredCreds × List Event
  | some c =>
      if c.expired && c.hasRefreshToken then
        if refreshOk then (some (refreshedCreds c), [])
        else (none, [Event.logWarn "Failed to refresh token, will create new one"])
      else (some c, [])
  | none => (none, [])

/-- The interactive OAuth branch: requires `GOOGLE_CREDENTIALS` (exit 1 when
falsy), writes the client secret to a scratch file, shows the authorization
URL, blocks on console input, exchanges the code (per the `flowOk` oracle)
and removes the scratch file on both outcomes; a failed exchange exits 1. -/
def interactiveStep (flowOk : Bool) (env : EnvMap) : Except Nat StoredCreds × List Event :=
  match get_env_or_default env "GOOGLE_CREDENTIALS" none false with
  | .error c => (.error c, [])
  | .ok googleCredsStr =>
    if falsy googleCredsStr then
      (.error 1, [Event.logError "GOOGLE_CREDENTIALS environment variable not set"])
    else
      let evs := [Event.fsWrite "credentials.json", Event.authPromptShown, Event.authInputRead]
      if flowOk then
        (.ok ⟨true, false, true⟩, evs ++ [Event.fsRemove "credentials.json"])
      else
        (.error 1, evs ++ [Event.logError "Authentication failed",
          Event.fsRemove "credentials.json"])

/-- Saving the credentials for the next run: writing `token.json`, whose own
failure is only a warning. -/
def saveTokenStep (tokenSaveOk : Bool) : List Event :=
  if tokenSaveOk then [Event.tokenSaved]
  else [Event.logWarn "Failed to save token file"]

/-- The credential provider `authenticate_google_drive()`: load the stored token; if missing or not
valid, try the refresh branch, then fall back to the interactive OAuth flow;
whenever the outer not-valid branch ran and produced credentials, persist
them.  Returns the credentials the Drive service is built from, or
`.error 1` for the internal `sys.exit(1)` calls. -/
def authenticate_google_drive (aw : AuthWorld) (env : EnvMap) :
    Except Nat StoredCreds × List Event :=
  let load := loadTokenFile aw.tokenFile
  if credValid load.1 then
    match load.1 with
    | some c => (.ok c, load.2)
    | none => (.error 1, load.2)
  else
    let r := refreshStep aw.refreshOk load.1
    if credValid r.1 then
      match r.1 with
      | some c => (.ok c, load.2 ++ r.2 ++ saveTokenStep aw.tokenSaveOk)
      | none => (.error 1, load.2 ++ r.2)
    else
      let i := interactiveStep aw.flowOk env
      match i.1 with
      | .error c => (.error c, load.2 ++ r.2 ++ i.2)
      | .ok c => (.ok c, load.2 ++ r.2 ++ i.2 ++ saveTokenStep aw.tokenSaveOk)

/-- The Drive folder MIME type used in the query and in folder creation. -/
def folderMime : String := "application/vnd.google-apps.folder"

/-- One object stored in Google Drive, with the metadata the script queries. -/
structure DriveFile where
  id : String
  name : String
  mimeType : String
  trashed : Bool
  createdTime : Int
  parents : List String
deriving Repr, DecidableEq

/-- The remote store: its objects, in the service's listing order, plus a
counter for minting fresh identifiers. -/
structure DriveState where
  files : List DriveFile
  nextId : Nat
deriving Repr, DecidableEq

/-- The files().list query of `get_or_create_folder`: exact name match,
folder MIME type, not trashed, in listing order. -/
def folderQuery (s : DriveState) (folderName : String) : List DriveFile :=
  List.filter (fun f => f.name == folderName && f.mimeType == folderMime && !f.trashed) s.files

/-- A service-assigned identifier for a newly created object. -/
def freshId (n : Nat) : String := "drive-id-" ++ toString n

/-- The folder step `get_or_create_folder(service, folder_name)`: list matching folders and
return the first match's id, else create the folder and return its new id.
`listOk`/`createOk` are the oracles for the two API calls; a failed call
raises (modelled as `.error ()`), which the orchestrator turns into exit 1. -/
def get_or_create_folder (listOk createOk : Bool) (s : DriveState) (now : Int)
    (folderName : String) : Except Unit (String × DriveState) × List Event :=
  if listOk then
    match folderQuery s folderName with
    | f :: _ => (.ok (f.id, s), [Event.driveListFolders folderName])
    | [] =>
      if createOk then
        let fid := freshId s.nextId
        let nf : DriveFile := ⟨fid, folderName, folderMime, false, now, []⟩
        (.ok (fid, ⟨s.files ++ [nf], s.nextId + 1⟩),
          [Event.driveListFolders folderName, Event.driveCreateFolder folderName])
      else
        (.error (), [Event.driveListFolders folderName, Event.driveCreateFolder folderName])
  else
    (.error (), [Event.driveListFolders folderName])

/-- The upload step `upload_to_google_drive(service, file_path, folder_id)`: resumable upload
of the archive into the folder; returns `True` on success, and on any API
failure logs the error and returns `False`. -/
def upload_to_google_drive (uploadOk : Bool) (s : DriveState) (now : Int)
    (filePath : String) (folderId : String) : Bool × DriveState × List Event :=
  if uploadOk then
    let nf : DriveFile := ⟨freshId s.nextId, filePath, "application/gzip", false, now, [folderId]⟩
    (true, ⟨s.files ++ [nf], s.nextId + 1⟩, [Event.driveUpload filePath])
  else
    (false, s, [Event.driveUpload filePath, Event.logError "Upload failed"])

/-- The files().list query of `delete_old_backups_gdrive`: objects in the
folder, not trashed, created strictly before the cutoff. -/
def pruneTargets (s : DriveState) (folderId : String) (cutoff : Int) : List DriveFile :=
  List.filter
    (fun f => f.parents.contains folderId && !f.trashed && decide (f.createdTime < cutoff))
    s.files

/-- The deletion loop of `delete_old_backups_gdrive`: each delete call may
raise (per the `deleteOk` oracle); a raise aborts the remaining deletions
(the surrounding `except` catches it).  Returns the store after the
deletions that happened, the delete events, and whether the loop finished. -/
def deleteLoop (deleteOk : String → Bool) (s : DriveState) :
    List DriveFile → DriveState × List Event × Bool
  | [] => (s, [], true)
  | f :: rest =>
    if deleteOk f.id then
      let s1 : DriveState := ⟨List.filter (fun g => g.id != f.id) s.files, s.nextId⟩
      let r := deleteLoop deleteOk s1 rest
      (r.1, Event.pruneDelete f.id :: r.2.1, r.2.2)
    else
      (s, [Event.pruneDelete f.id], false)

/-- The pruning step `delete_old_backups_gdrive(service, folder_id, retention_days)`: compute
the cutoff `now - retention_days`, list the stale objects and delete them one
by one; any raised API error is caught and logged, never escalated. -/
def delete_old_backups_gdrive (pruneListOk : Bool) (deleteOk : String → Bool)
    (s : DriveState) (now : Int) (folderId : String) (retentionDays : Int) :
    DriveState × List Event :=
  let cutoff := now - retentionDays
  if pruneListOk then
    let r := deleteLoop deleteOk s (pruneTargets s folderId cutoff)
    (r.1, Event.pruneList :: r.2.1
      ++ (if r.2.2 then [] else [Event.logError "Error deleting old backups from Google Drive"]))
  else
    (s, [Event.pruneList, Event.logError "Error deleting old backups from Google Drive"])

/-- Digits of a candidate integer literal: non-empty and all decimal. -/
def allDigits (cs : List Char) : Bool := !cs.isEmpty && cs.all Char.isDigit

/-- Numeric value of a decimal digit string. -/
def digitsVal (cs : List Char) : Nat :=
  cs.foldl (fun a c => a * 10 + (c.toNat - 48)) 0

/-- Surrounding-whitespace strip over the character list (what `int(s)`
tolerates around the digits). -/
def stripWs (cs : List Char) : List Char :=
  ((cs.dropWhile Char.isWhitespace).reverse.dropWhile Char.isWhitespace).reverse

/-- Python's `int(s)` on a string: optional surrounding whitespace, optional
sign, decimal digits; anything else raises (returns `none`). -/
def parsePyInt (s : String) : Option Int :=
  match stripWs s.toList with
  | '-' :: rest => if allDigits rest then some (-(digitsVal rest : Int)) else none
  | '+' :: rest => if allDigits rest then some ((digitsVal rest : Int)) else none
  | cs => if allDigits cs then some ((digitsVal cs : Int)) else none

/-- The retention setting `int(get_env_or_default("RETENTION_DAYS", DEFAULT_RETENTION_DAYS))` at the
top of `main`: the environment value parsed as an integer when set (a parse
failure is an uncaught exception, `none`), else the default 7. -/
def retentionOf (env : EnvMap) : Option Int :=
  match envGet env "RETENTION_DAYS" with
  | none => some 7
  | some s => parsePyInt s

/-- Everything outside the process that a run of `main` can observe: the
environment, the wall clock (a timestamp string for filenames and an integer
time for retention), the outcome oracles of every external call, and the
initial Drive contents. -/
structure World where
  env : EnvMap
  timestamp : String
  now : Int
  dump : DumpOutcome
  compressOk : Bool
  auth : AuthWorld
  drive0 : DriveState
  listOk : Bool
  createOk : Bool
  uploadOk : Bool
  pruneListOk : Bool
  deleteOk : String → Bool
  cleanupOk : Bool

/-- The observable outcome of a run: process exit code, the final state of
the run's temporary directory (`none` once it has been removed), the final
Drive contents, and the event trace. -/
structure RunResult where
  exitCode : Nat
  tempDir : Option TempFS
  drive : DriveState
  events : List Event

/-- The body of `main`'s `try:` block — steps 1 to 5 (dump+compress,
authenticate, folder, upload, prune).  Any failure is `.error` with the exit
status; the temporary-directory contents, Drive state and events are returned
in every case. -/
def mainBody (w : World) (retentionDays : Int) (gdriveFolder : String) (fs : TempFS) :
    Except Nat Unit × TempFS × DriveState × List Event :=
  let cb := create_postgres_backup w.env w.timestamp w.dump w.compressOk fs
  match cb.1 with
  | .error c => (.error c, cb.2.1, w.drive0, cb.2.2)
  | .ok none =>
      (.error 1, cb.2.1, w.drive0, cb.2.2 ++ [Event.logError "Backup creation failed. Exiting."])
  | .ok (some backupPath) =>
    let au := authenticate_google_drive w.auth w.env
    match au.1 with
    | .error _ => (.error 1, cb.2.1, w.drive0, cb.2.2 ++ au.2)
    | .ok _creds =>
      let gc := get_or_create_folder w.listOk w.createOk w.drive0 w.now gdriveFolder
      match gc.1 with
      | .error _ =>
          (.error 1, cb.2.1, w.drive0, cb.2.2 ++ au.2 ++ gc.2
            ++ [Event.logError "Failed to get/create Google Drive folder"])
      | .ok pr =>
        let up := upload_to_google_drive w.uploadOk pr.2 w.now backupPath pr.1
        if up.1 then
          if retentionDays > 0 then
            let p := delete_old_backups_gdrive w.pruneListOk w.deleteOk up.2.1 w.now
              pr.1 retentionDays
            (.ok (), cb.2.1, p.1, cb.2.2 ++ au.2 ++ gc.2 ++ up.2.2 ++ p.2)
          else
            (.ok (), cb.2.1, up.2.1, cb.2.2 ++ au.2 ++ gc.2 ++ up.2.2)
        else
          (.error 1, cb.2.1, up.2.1, cb.2.2 ++ au.2 ++ gc.2 ++ up.2.2
            ++ [Event.logError "Upload to Google Drive failed."])

/-- The `finally:` block of `main`: remove every regular file of the
temporary directory, then the directory itself; its own failure is only
logged (warning) and the directory's contents are left as they were. -/
def cleanupStep (cleanupOk : Bool) (fs : TempFS) : Option TempFS × List Event :=
  if cleanupOk then
    (none, Event.cleanupAttempt :: List.map Event.fsRemove fs)
  else
    (some fs, [Event.cleanupAttempt, Event.logWarn "Error cleaning up temporary files"])

/-- The orchestrator `main()`: read `RETENTION_DAYS` (a malformed value is an uncaught
exception before the temporary directory exists) and `GDRIVE_FOLDER`, make
the temporary directory, run the pipeline body, and always run the cleanup
step; the exit code is 0 only when the body succeeded. -/
def main (w : World) : RunResult :=
  match retentionOf w.env with
  | none => ⟨1, none, w.drive0, []⟩
  | some retentionDays =>
    let gdriveFolder := (envGet w.env "GDRIVE_FOLDER").getD "postgres_backups"
    let body := mainBody w retentionDays gdriveFolder []
    let cl := cleanupStep w.cleanupOk body.2.1
    ⟨(match body.1 with | .ok _ => 0 | .error c => c), cl.1, body.2.2.1,
      Event.mkTempDir :: (body.2.2.2 ++ cl.2)⟩

/-- A configuration with every required connection setting present. -/
def envFull : EnvMap :=
  [("PGHOST", "db.example"), ("PGUSER", "postgres"), ("PGPASSWORD", "secret"),
   ("PGDATABASE", "appdb")]

/-- A stored, still-valid token: authentication succeeds with no interaction. -/
def awValid : AuthWorld := ⟨.stored ⟨true, false, true⟩, true, true, true⟩

/-- An empty remote store. -/
def emptyDrive : DriveState := ⟨[], 0⟩

/-- A world in which every external call succeeds. -/
def wSuccess : World :=
  ⟨envFull, "20260101_000000", 100, .ok, true, awValid, emptyDrive,
   true, true, true, true, fun _ => true, true⟩

/-! ### Helper lemmas -/

theorem get_env_required_of_not_falsy (env : EnvMap) (name : String)
    (h : falsy (envGet env name) = false) :
    get_env_or_default env name none true = .ok (envGet env name) := by
  cases ho : envGet env name with
  | none => rw [ho] at h; simp [falsy] at h
  | some s =>
      rw [ho] at h
      simp only [falsy] at h
      simp [get_env_or_default, ho, falsy, h]

theorem get_env_required_of_falsy (env : EnvMap) (name : String)
    (h : falsy (envGet env name) = true) :
    get_env_or_default env name none true = .error 1 := by
  cases ho : envGet env name with
  | none => simp [get_env_or_default, ho, falsy]
  | some s =>
      rw [ho] at h
      simp only [falsy] at h
      simp [get_env_or_default, ho, falsy, h]

theorem get_env_not_required (env : EnvMap) (name : String) (dflt : Option String) :
    get_env_or_default env name dflt false =
      .ok (match envGet env name with | some s => some s | none => dflt) := by
  simp [get_env_or_default]

theorem backupFileName_ne_dumpFileName (ts : String) :
    backupFileName ts ≠ dumpFileName ts := by
  intro h
  have hl := congrArg String.length h
  have h1 : ("postgres_backup_" : String).length = 16 := rfl
  have h2 : ("postgres_dump_" : String).length = 14 := rfl
  have h3 : (".tar.gz" : String).length = 7 := rfl
  have h4 : (".sql" : String).length = 4 := rfl
  simp [backupFileName, dumpFileName, String.length_append, h1, h2, h3, h4] at hl
  omega

theorem create_postgres_backup_events_all (env : EnvMap) (ts : String)
    (dump : DumpOutcome) (cOk : Bool) (fs : TempFS) (p : Event → Bool)
    (hErr : ∀ m, p (.logError m) = true) (hDump : p .dumpInvoked = true)
    (hW : ∀ n, p (.fsWrite n) = true) (hR : ∀ n, p (.fsRemove n) = true) :
    ∀ e ∈ (create_postgres_backup env ts dump cOk fs).2.2, p e = true := by
  intro e he
  unfold create_postgres_backup at he
  repeat' split at he
  all_goals refine List.all_eq_true.mp ?_ e he
  all_goals simp [hErr, hDump, hW, hR]

theorem loadTokenFile_events_all (t : TokenFileState) (p : Event → Bool)
    (hWarn : ∀ m, p (.logWarn m) = true) :
    ∀ e ∈ (loadTokenFile t).2, p e = true := by
  cases t <;> simp [loadTokenFile, hWarn]

theorem refreshStep_events_all (rOk : Bool) (c : Option StoredCreds) (p : Event → Bool)
    (hWarn : ∀ m, p (.logWarn m) = true) :
    ∀ e ∈ (refreshStep rOk c).2, p e = true := by
  intro e he
  unfold refreshStep at he
  repeat' split at he
  all_goals refine List.all_eq_true.mp ?_ e he
  all_goals simp [hWarn]

theorem interactiveStep_events_all (fOk : Bool) (env : EnvMap) (p : Event → Bool)
    (hErr : ∀ m, p (.logError m) = true)
    (hW : ∀ n, p (.fsWrite n) = true) (hR : ∀ n, p (.fsRemove n) = true)
    (hPrompt : p .authPromptShown = true) (hInput : p .authInputRead = true) :
    ∀ e ∈ (interactiveStep fOk env).2, p e = true := by
  intro e he
  unfold interactiveStep get_env_or_default at he
  repeat' split at he
  all_goals refine List.all_eq_true.mp ?_ e he
  all_goals simp [hErr, hW, hR, hPrompt, hInput]

theorem saveTokenStep_events_all (sOk : Bool) (p : Event → Bool)
    (hSaved : p .tokenSaved = true) (hWarn : ∀ m, p (.logWarn m) = true) :
    ∀ e ∈ saveTokenStep sOk, p e = true := by
  intro e he
  unfold saveTokenStep at he
  split at he
  all_goals refine List.all_eq_true.mp ?_ e he
  all_goals simp [hSaved, hWarn]

theorem authenticate_events_all (aw : AuthWorld) (env : EnvMap) (p : Event → Bool)
    (hErr : ∀ m, p (.logError m) = true) (hWarn : ∀ m, p (.logWarn m) = true)
    (hW : ∀ n, p (.fsWrite n) = true) (hR : ∀ n, p (.fsRemove n) = true)
    (hPrompt : p .authPromptShown = true) (hInput : p .authInputRead = true)
    (hSaved : p .tokenSaved = true) :
    ∀ e ∈ (authenticate_google_drive aw env).2, p e = true := by
  intro e he
  unfold authenticate_google_drive at he
  rcases hl : (loadTokenFile aw.tokenFile).1 with _ | ⟨cv, ce, crt⟩
  all_goals rcases hro : aw.refreshOk
  all_goals rcases hi : (interactiveStep aw.flowOk env).1 with c3 | c4
  all_goals try cases cv
  all_goals try cases ce
  all_goals try cases crt
  all_goals simp only [hl] at he
  all_goals simp [credValid, refreshStep, refreshedCreds, hro, hi] at he
  all_goals repeat' (rcases he with he | he)
  all_goals first
    | exact loadTokenFile_events_all _ p hWarn e he
    | exact refreshStep_events_all _ _ p hWarn e he
    | exact interactiveStep_events_all _ env p hErr hW hR hPrompt hInput e he
    | exact saveTokenStep_events_all _ p hSaved hWarn e he
    | exact hWarn _
    | exact hErr _
    | exact hSaved
    | exact hPrompt
    | exact hInput
    | exact hW _
    | exact hR _

theorem get_or_create_folder_events_all (lOk cOk : Bool) (s : DriveState) (now : Int)
    (name : String) (p : Event → Bool)
    (hList : ∀ n, p (.driveListFolders n) = true)
    (hCreate : ∀ n, p (.driveCreateFolder n) = true) :
    ∀ e ∈ (get_or_create_folder lOk cOk s now name).2, p e = true := by
  intro e he
  unfold get_or_create_folder at he
  repeat' split at he
  all_goals refine List.all_eq_true.mp ?_ e he
  all_goals simp [hList, hCreate]

theorem upload_events_all (uOk : Bool) (s : DriveState) (now : Int)
    (fp fid : String) (p : Event → Bool)
    (hUp : ∀ n, p (.driveUpload n) = true) (hErr : ∀ m, p (.logError m) = true) :
    ∀ e ∈ (upload_to_google_drive uOk s now fp fid).2.2, p e = true := by
  intro e he
  unfold upload_to_google_drive at he
  repeat' split at he
  all_goals refine List.all_eq_true.mp ?_ e he
  all_goals simp [hUp, hErr]

theorem deleteLoop_events_all (dOk : String → Bool) (s : DriveState)
    (l : List DriveFile) (p : Event → Bool)
    (hDel : ∀ i, p (.pruneDelete i) = true) :
    ∀ e ∈ (deleteLoop dOk s l).2.1, p e = true := by
  induction l generalizing s with
  | nil => intro e he; simp [deleteLoop] at he
  | cons f rest ih =>
      intro e he
      unfold deleteLoop at he
      split at he
      · simp only [List.mem_cons] at he
        rcases he with h | h
        · subst h; exact hDel f.id
        · exact ih _ e h
      · simp at he; subst he; exact hDel f.id

theorem delete_old_backups_events_all (plOk : Bool) (dOk : String → Bool)
    (s : DriveState) (now : Int) (fid : String) (rd : Int) (p : Event → Bool)
    (hList : p .pruneList = true) (hDel : ∀ i, p (.pruneDelete i) = true)
    (hErr : ∀ m, p (.logError m) = true) :
    ∀ e ∈ (delete_old_backups_gdrive plOk dOk s now fid rd).2, p e = true := by
  intro e he
  unfold delete_old_backups_gdrive at he
  cases plOk
  · simp at he
    rcases he with rfl | rfl
    · exact hList
    · exact hErr _
  · rcases hfin : (deleteLoop dOk s (pruneTargets s fid (now - rd))).2.2 <;>
      simp [hfin, List.mem_cons, List.mem_append] at he
    · rcases he with rfl | he | rfl
      · exact hList
      · exact deleteLoop_events_all dOk s _ p hDel e he
      · exact hErr _
    · rcases he with rfl | he
      · exact hList
      · exact deleteLoop_events_all dOk s _ p hDel e he

theorem cleanupStep_events_all (cOk : Bool) (fs : TempFS) (p : Event → Bool)
    (hAtt : p .cleanupAttempt = true) (hR : ∀ n, p (.fsRemove n) = true)
    (hWarn : ∀ m, p (.logWarn m) = true) :
    ∀ e ∈ (cleanupStep cOk fs).2, p e = true := by
  intro e he
  unfold cleanupStep at he
  split at he
  · simp only [List.mem_cons, List.mem_map] at he
    rcases he with h | ⟨n, _, h⟩
    · subst h; exact hAtt
    · subst h; exact hR n
  · refine List.all_eq_true.mp ?_ e he
    simp [hAtt, hWarn]

theorem mainBody_events_all (w : World) (rd : Int) (gf : String) (fs : TempFS)
    (p : Event → Bool)
    (hErr : ∀ m, p (.logError m) = true) (hWarn : ∀ m, p (.logWarn m) = true)
    (hDump : p .dumpInvoked = true)
    (hW : ∀ n, p (.fsWrite n) = true) (hR : ∀ n, p (.fsRemove n) = true)
    (hPrompt : p .authPromptShown = true) (hInput : p .authInputRead = true)
    (hSaved : p .tokenSaved = true)
    (hList : ∀ n, p (.driveListFolders n) = true)
    (hCreate : ∀ n, p (.driveCreateFolder n) = true)
    (hUp : ∀ n, p (.driveUpload n) = true)
    (hPrune : rd > 0 → p .pruneList = true ∧ ∀ i, p (.pruneDelete i) = true) :
    ∀ e ∈ (mainBody w rd gf fs).2.2.2, p e = true := by
  intro e he
  unfold mainBody at he
  rcases hcb : (create_postgres_backup w.env w.timestamp w.dump w.compressOk fs).1 with c | ob
  all_goals try rcases ob with _ | bp
  all_goals rcases hau : (authenticate_google_drive w.auth w.env).1 with c2 | cr
  all_goals rcases hgc : (get_or_create_folder w.listOk w.createOk w.drive0 w.now gf).1
    with c3 | pr
  all_goals rcases hupOk : w.uploadOk
  all_goals by_cases hrd : rd > 0
  all_goals try simp only [hcb] at he
  all_goals try simp only [hau] at he
  all_goals try simp only [hgc] at he
  all_goals try simp only [upload_to_google_drive, hupOk] at he
  all_goals try simp [hrd] at he
  all_goals try simp only [List.mem_append, List.mem_singleton, List.not_mem_nil,
    or_false, false_or] at he
  all_goals repeat' (rcases he with he | he)
  all_goals first
    | exact create_postgres_backup_events_all _ _ _ _ _ p hErr hDump hW hR e he
    | exact authenticate_events_all _ _ p hErr hWarn hW hR hPrompt hInput hSaved e he
    | exact get_or_create_folder_events_all _ _ _ _ _ p hList hCreate e he
    | exact upload_events_all _ _ _ _ _ p hUp hErr e he
    | exact delete_old_backups_events_all _ _ _ _ _ _ p (hPrune ‹_›).1
        (fun i => (hPrune ‹_›).2 i) hErr e he
    | exact he ▸ hErr _
    | exact he ▸ hUp _
    | exact hErr _
    | exact hUp _

theorem main_events_all (w : World) (p : Event → Bool)
    (hTmp : p .mkTempDir = true) (hAtt : p .cleanupAttempt = true)
    (hErr : ∀ m, p (.logError m) = true) (hWarn : ∀ m, p (.logWarn m) = true)
    (hDump : p .dumpInvoked = true)
    (hW : ∀ n, p (.fsWrite n) = true) (hR : ∀ n, p (.fsRemove n) = true)
    (hPrompt : p .authPromptShown = true) (hInput : p .authInputRead = true)
    (hSaved : p .tokenSaved = true)
    (hList : ∀ n, p (.driveListFolders n) = true)
    (hCreate : ∀ n, p (.driveCreateFolder n) = true)
    (hUp : ∀ n, p (.driveUpload n) = true)
    (hPrune : ∀ r, retentionOf w.env = some r → r > 0 →
      p .pruneList = true ∧ ∀ i, p (.pruneDelete i) = true) :
    ∀ e ∈ (main w).events, p e = true := by
  intro e he
  unfold main at he
  rcases hret : retentionOf w.env with _ | r
  all_goals simp only [hret] at he
  · simp at he
  · simp only [List.mem_cons, List.mem_append] at he
    rcases he with rfl | he | he
    · exact hTmp
    · exact mainBody_events_all w r _ [] p hErr hWarn hDump hW hR hPrompt hInput hSaved
        hList hCreate hUp (fun h => hPrune r hret h) e he
    · exact cleanupStep_events_all _ _ p hAtt hR hWarn e he

theorem create_error_of_required_falsy (env : EnvMap) (ts : String)
    (dump : DumpOutcome) (cOk : Bool) (fs : TempFS)
    (hreq : falsy (envGet env "PGHOST") = true ∨ falsy (envGet env "PGUSER") = true ∨
      falsy (envGet env "PGPASSWORD") = true ∨ falsy (envGet env "PGDATABASE") = true) :
    ∃ m, create_postgres_backup env ts dump cOk fs = (.error 1, fs, [Event.logError m]) := by
  unfold create_postgres_backup
  rcases hh : falsy (envGet env "PGHOST")
  · rw [get_env_required_of_not_falsy env "PGHOST" hh, get_env_not_required]
    rcases hu : falsy (envGet env "PGUSER")
    · rw [get_env_required_of_not_falsy env "PGUSER" hu]
      rcases hp : falsy (envGet env "PGPASSWORD")
      · rw [get_env_required_of_not_falsy env "PGPASSWORD" hp]
        rcases hd : falsy (envGet env "PGDATABASE")
        · rcases hreq with h | h | h | h <;> simp_all
        · rw [get_env_required_of_falsy env "PGDATABASE" hd]
          exact ⟨_, rfl⟩
      · rw [get_env_required_of_falsy env "PGPASSWORD" hp]
        exact ⟨_, rfl⟩
    · rw [get_env_required_of_falsy env "PGUSER" hu]
      exact ⟨_, rfl⟩
  · rw [get_env_required_of_falsy env "PGHOST" hh]
    exact ⟨_, rfl⟩

theorem create_dump_err_spec (env : EnvMap) (ts stderrText : String) (lf cOk : Bool)
    (fs : TempFS)
    (hh : falsy (envGet env "PGHOST") = false)
    (hu : falsy (envGet env "PGUSER") = false)
    (hp : falsy (envGet env "PGPASSWORD") = false)
    (hd : falsy (envGet env "PGDATABASE") = false) :
    create_postgres_backup env ts (.err stderrText lf) cOk fs =
      (.ok none, (if lf then fsAdd fs (dumpFileName ts) else fs),
        [Event.dumpInvoked] ++ (if lf then [Event.fsWrite (dumpFileName ts)] else [])
          ++ [Event.logError ("Backup failed: " ++ stderrText)]) := by
  unfold create_postgres_backup
  rw [get_env_required_of_not_falsy env "PGHOST" hh, get_env_not_required,
    get_env_required_of_not_falsy env "PGUSER" hu,
    get_env_required_of_not_falsy env "PGPASSWORD" hp,
    get_env_required_of_not_falsy env "PGDATABASE" hd,
    get_env_not_required]

theorem create_ok_spec (env : EnvMap) (ts : String) (fs : TempFS)
    (hh : falsy (envGet env "PGHOST") = false)
    (hu : falsy (envGet env "PGUSER") = false)
    (hp : falsy (envGet env "PGPASSWORD") = false)
    (hd : falsy (envGet env "PGDATABASE") = false) :
    create_postgres_backup env ts .ok true fs =
      (.ok (some (backupFileName ts)),
        fsErase (fsAdd (fsAdd fs (dumpFileName ts)) (backupFileName ts)) (dumpFileName ts),
        [Event.dumpInvoked, Event.fsWrite (dumpFileName ts),
          Event.fsWrite (backupFileName ts), Event.fsRemove (dumpFileName ts)]) := by
  unfold create_postgres_backup
  rw [get_env_required_of_not_falsy env "PGHOST" hh, get_env_not_required,
    get_env_required_of_not_falsy env "PGUSER" hu,
    get_env_required_of_not_falsy env "PGPASSWORD" hp,
    get_env_required_of_not_falsy env "PGDATABASE" hd,
    get_env_not_required]
  rfl

theorem create_compress_fail_spec (env : EnvMap) (ts : String) (fs : TempFS)
    (hh : falsy (envGet env "PGHOST") = false)
    (hu : falsy (envGet env "PGUSER") = false)
    (hp : falsy (envGet env "PGPASSWORD") = false)
    (hd : falsy (envGet env "PGDATABASE") = false) :
    create_postgres_backup env ts .ok false fs =
      (.ok none,
        fsErase (fsErase (fsAdd (fsAdd fs (dumpFileName ts)) (backupFileName ts))
          (dumpFileName ts)) (backupFileName ts),
        [Event.dumpInvoked, Event.fsWrite (dumpFileName ts),
          Event.fsWrite (backupFileName ts),
          Event.logError "Error creating or compressing backup",
          Event.fsRemove (dumpFileName ts), Event.fsRemove (backupFileName ts)]) := by
  unfold create_postgres_backup
  rw [get_env_required_of_not_falsy env "PGHOST" hh, get_env_not_required,
    get_env_required_of_not_falsy env "PGUSER" hu,
    get_env_required_of_not_falsy env "PGPASSWORD" hp,
    get_env_required_of_not_falsy env "PGDATABASE" hd,
    get_env_not_required]
  rfl

theorem auth_valid_token_spec (aw : AuthWorld) (env : EnvMap)
    (h : credValid (loadTokenFile aw.tokenFile).1 = true) :
    ∃ c, authenticate_google_drive aw env = (.ok c, (loadTokenFile aw.tokenFile).2) := by
  unfold authenticate_google_drive
  rcases hl : (loadTokenFile aw.tokenFile).1 with _ | c
  · rw [hl] at h; simp [credValid] at h
  · rw [hl] at h
    exact ⟨c, by simp [h, hl]⟩

theorem get_or_create_folder_ok (s : DriveState) (now : Int) (name : String) :
    ∃ pr, (get_or_create_folder true true s now name).1 = .ok pr := by
  unfold get_or_create_folder
  rcases hq : folderQuery s name with _ | ⟨f0, rest⟩ <;> simp [hq]

theorem get_or_create_folder_drive_mono (lOk cOk : Bool) (s : DriveState) (now : Int)
    (name : String) (pr : String × DriveState)
    (h : (get_or_create_folder lOk cOk s now name).1 = .ok pr) :
    ∀ f ∈ s.files, f ∈ pr.2.files := by
  intro f hf
  unfold get_or_create_folder at h
  cases lOk
  · simp at h
  · rcases hq : folderQuery s name with _ | ⟨f0, rest⟩ <;> simp only [hq] at h
    · cases cOk
      · simp at h
      · simp at h
        subst h
        exact List.mem_append_left _ hf
    · simp at h
      subst h
      exact hf

theorem upload_drive_mono (uOk : Bool) (s : DriveState) (now : Int) (fp fid : String) :
    ∀ f ∈ s.files, f ∈ (upload_to_google_drive uOk s now fp fid).2.1.files := by
  intro f hf
  unfold upload_to_google_drive
  cases uOk
  · simpa using hf
  · simp only [if_true]
    exact List.mem_append_left _ hf

theorem main_exit0 (w : World) (r : Int) (hret : retentionOf w.env = some r)
    (hh : falsy (envGet w.env "PGHOST") = false)
    (hu : falsy (envGet w.env "PGUSER") = false)
    (hp : falsy (envGet w.env "PGPASSWORD") = false)
    (hd : falsy (envGet w.env "PGDATABASE") = false)
    (hdump : w.dump = .ok) (hcomp : w.compressOk = true)
    (hauth : credValid (loadTokenFile w.auth.tokenFile).1 = true)
    (hlist : w.listOk = true) (hcr : w.createOk = true) (hupl : w.uploadOk = true) :
    (main w).exitCode = 0 := by
  have hcb := create_ok_spec w.env w.timestamp [] hh hu hp hd
  obtain ⟨c, hau⟩ := auth_valid_token_spec w.auth w.env hauth
  obtain ⟨pr, hgc⟩ := get_or_create_folder_ok w.drive0 w.now
    ((envGet w.env "GDRIVE_FOLDER").getD "postgres_backups")
  unfold main mainBody
  simp only [hret, hdump, hcomp, hlist, hcr, hupl, hcb, hau, hgc]
  by_cases h0 : r > 0 <;> simp [upload_to_google_drive, h0]

/-! ### The claims -/

/-- Claim C1 (confirmed): whichever step the pipeline fails in — or on full
success — once the run's temporary directory exists (that is, once
`RETENTION_DAYS` parsed, which happens before `mkdtemp`), the cleanup of that
directory is always attempted; when the cleanup succeeds the directory and
every file in it are gone (`tempDir = none`), and when the cleanup itself
fails this is only logged as a warning and the directory is left behind. -/
theorem main_always_cleans_up (w : World) (h : retentionOf w.env ≠ none) :
    Event.cleanupAttempt ∈ (main w).events ∧
    (w.cleanupOk = true → (main w).tempDir = none) ∧
    (w.cleanupOk = false → (main w).tempDir ≠ none ∧
      Event.logWarn "Error cleaning up temporary files" ∈ (main w).events) := by
  rcases hret : retentionOf w.env with _ | r
  · exact absurd hret h
  · unfold main
    simp only [hret]
    rcases hc : w.cleanupOk <;>
      simp [cleanupStep, hc, List.mem_append, List.mem_cons]

/-- Witness for C1 at a concrete world in which every external call
succeeds. -/
theorem main_always_cleans_up_witness :
    retentionOf wSuccess.env ≠ none ∧
    (Event.cleanupAttempt ∈ (main wSuccess).events ∧
    (wSuccess.cleanupOk = true → (main wSuccess).tempDir = none) ∧
    (wSuccess.cleanupOk = false → (main wSuccess).tempDir ≠ none ∧
      Event.logWarn "Error cleaning up temporary files" ∈ (main wSuccess).events)) :=
  ⟨by decide, main_always_cleans_up wSuccess (by decide)⟩

/-- Claim C2 (confirmed): when `pg_dump` exits non-zero, the failure is
reported with the captured stderr text, no Drive upload call is ever made,
and the process exits with status 1. -/
theorem dump_failure_aborts (w : World) (stderrText : String) (lf : Bool)
    (hret : retentionOf w.env ≠ none)
    (hh : falsy (envGet w.env "PGHOST") = false)
    (hu : falsy (envGet w.env "PGUSER") = false)
    (hp : falsy (envGet w.env "PGPASSWORD") = false)
    (hd : falsy (envGet w.env "PGDATABASE") = false)
    (hdump : w.dump = .err stderrText lf) :
    (main w).exitCode = 1 ∧
    Event.logError ("Backup failed: " ++ stderrText) ∈ (main w).events ∧
    ∀ n, Event.driveUpload n ∉ (main w).events := by
  rcases hret2 : retentionOf w.env with _ | r
  · exact absurd hret2 hret
  · have hcb := create_dump_err_spec w.env w.timestamp stderrText lf w.compressOk []
      hh hu hp hd
    unfold main mainBody
    simp only [hret2, hdump, hcb]
    rcases lf <;> rcases hc : w.cleanupOk <;>
      simp [cleanupStep, hc, fsAdd, List.mem_append, List.mem_cons]

/-- Witness for C2: a concrete world whose dump fails with stderr `boom`. -/
theorem dump_failure_aborts_witness :
    (retentionOf envFull ≠ none ∧
      falsy (envGet envFull "PGHOST") = false ∧
      falsy (envGet envFull "PGUSER") = false ∧
      falsy (envGet envFull "PGPASSWORD") = false ∧
      falsy (envGet envFull "PGDATABASE") = false) ∧
    ((main ⟨envFull, "ts", 100, .err "boom" true, true, awValid, emptyDrive,
        true, true, true, true, fun _ => true, true⟩).exitCode = 1 ∧
      Event.logError ("Backup failed: " ++ "boom") ∈
        (main ⟨envFull, "ts", 100, .err "boom" true, true, awValid, emptyDrive,
          true, true, true, true, fun _ => true, true⟩).events ∧
      ∀ n, Event.driveUpload n ∉
        (main ⟨envFull, "ts", 100, .err "boom" true, true, awValid, emptyDrive,
          true, true, true, true, fun _ => true, true⟩).events) :=
  ⟨⟨by decide, by decide, by decide, by decide, by decide⟩,
    dump_failure_aborts _ "boom" true (by decide) (by decide) (by decide)
      (by decide) (by decide) rfl⟩

/-- Claim C10 (confirmed): `get_env_or_default` treats a set-but-empty value
like an unset one for the `required` check — both exit with status 1 — while
a non-required variable set to the empty string is returned as the empty
string, not replaced by the default. -/
theorem get_env_empty_equals_unset (env : EnvMap) (name : String)
    (dflt : Option String) (hset : envGet env name = some "") :
    get_env_or_default env name dflt true = .error 1 ∧
    get_env_or_default env name dflt false = .ok (some "") ∧
    (∀ env2 : EnvMap, envGet env2 name = none →
      get_env_or_default env2 name none true = .error 1) := by
  refine ⟨?_, ?_, ?_⟩
  · simp [get_env_or_default, hset, falsy]
  · simp [get_env_or_default, hset, falsy]
  · intro env2 h2
    simp [get_env_or_default, h2, falsy]

/-- Witness for C10 at the concrete environment `X=""` with default `d`. -/
theorem get_env_empty_equals_unset_witness :
    envGet [("X", "")] "X" = some "" ∧
    (get_env_or_default [("X", "")] "X" (some "d") true = .error 1 ∧
      get_env_or_default [("X", "")] "X" (some "d") false = .ok (some "") ∧
      (∀ env2 : EnvMap, envGet env2 "X" = none →
        get_env_or_default env2 "X" none true = .error 1)) :=
  ⟨by decide, get_env_empty_equals_unset [("X", "")] "X" (some "d") (by decide)⟩

theorem mainBody_drive_mono (w : World) (rd : Int) (gf : String) (fs : TempFS)
    (hrd : ¬ rd > 0) :
    ∀ f ∈ w.drive0.files, f ∈ (mainBody w rd gf fs).2.2.1.files := by
  intro f hf
  unfold mainBody
  rcases hcb : (create_postgres_backup w.env w.timestamp w.dump w.compressOk fs).1 with c | ob
  · simp only [hcb]; exact hf
  · rcases ob with _ | bp
    · simp only [hcb]; exact hf
    · rcases hau : (authenticate_google_drive w.auth w.env).1 with c2 | cr
      · simp only [hcb, hau]; exact hf
      · rcases hgc : (get_or_create_folder w.listOk w.createOk w.drive0 w.now gf).1
          with c3 | pr
        · simp only [hcb, hau, hgc]; exact hf
        · have hm1 := get_or_create_folder_drive_mono w.listOk w.createOk w.drive0 w.now
            gf pr hgc f hf
          have hm2 := upload_drive_mono w.uploadOk pr.2 w.now bp pr.1 f hm1
          simp only [hcb, hau, hgc]
          rcases hup : (upload_to_google_drive w.uploadOk pr.2 w.now bp pr.1).1 <;>
            simp [hup, hrd] <;> exact hm2

/-- A run with `RETENTION_DAYS=0` and every external call succeeding. -/
def envRet0 : EnvMap := ("RETENTION_DAYS", "0") :: envFull

/-- The world of Scenario A: retention disabled, dump and upload succeed. -/
def wRet0 : World :=
  ⟨envRet0, "20260101_000000", 100, .ok, true, awValid, emptyDrive,
   true, true, true, true, fun _ => true, true⟩

/-- Claim C3 (confirmed): with `retention_days <= 0` the pruning step is
skipped entirely — no prune list query and no delete call appears in the
trace, and every object initially in the remote store is still there at the
end of the run — and a Scenario-A run (dump, auth, folder and upload all
succeed) exits 0. -/
theorem retention_nonpositive_skips_prune (w : World) (r : Int)
    (hret : retentionOf w.env = some r) (hle : r ≤ 0) :
    Event.pruneList ∉ (main w).events ∧
    (∀ fid, Event.pruneDelete fid ∉ (main w).events) ∧
    (∀ f, f ∈ w.drive0.files → f ∈ (main w).drive.files) ∧
    (w.dump = .ok → w.compressOk = true →
      falsy (envGet w.env "PGHOST") = false → falsy (envGet w.env "PGUSER") = false →
      falsy (envGet w.env "PGPASSWORD") = false →
      falsy (envGet w.env "PGDATABASE") = false →
      credValid (loadTokenFile w.auth.tokenFile).1 = true →
      w.listOk = true → w.createOk = true → w.uploadOk = true →
      (main w).exitCode = 0) := by
  have hnp : ∀ e ∈ (main w).events,
      (fun ev => match ev with
        | Event.pruneList => false
        | Event.pruneDelete _ => false
        | _ => true) e = true := by
    apply main_events_all w _ rfl rfl (fun _ => rfl) (fun _ => rfl) rfl (fun _ => rfl)
      (fun _ => rfl) rfl rfl rfl (fun _ => rfl) (fun _ => rfl) (fun _ => rfl)
    intro r2 h1 h2
    rw [hret] at h1
    injection h1 with h3
    subst h3
    exact absurd h2 (by omega)
  refine ⟨?_, ?_, ?_, ?_⟩
  · intro hmem; have := hnp _ hmem; simp at this
  · intro fid hmem; have := hnp _ hmem; simp at this
  · intro f hf
    unfold main
    simp only [hret]
    exact mainBody_drive_mono w r _ [] (by omega) f hf
  · intro h1 h2 h3 h4 h5 h6 h7 h8 h9 h10
    exact main_exit0 w r hret h3 h4 h5 h6 h1 h2 h7 h8 h9 h10

/-- Witness for C3 at the concrete Scenario-A world (`RETENTION_DAYS=0`). -/
theorem retention_nonpositive_skips_prune_witness :
    (retentionOf wRet0.env = some 0 ∧ (0 : Int) ≤ 0) ∧
    (Event.pruneList ∉ (main wRet0).events ∧
      (∀ fid, Event.pruneDelete fid ∉ (main wRet0).events) ∧
      (∀ f, f ∈ wRet0.drive0.files → f ∈ (main wRet0).drive.files) ∧
      (wRet0.dump = .ok → wRet0.compressOk = true →
        falsy (envGet wRet0.env "PGHOST") = false →
        falsy (envGet wRet0.env "PGUSER") = false →
        falsy (envGet wRet0.env "PGPASSWORD") = false →
        falsy (envGet wRet0.env "PGDATABASE") = false →
        credValid (loadTokenFile wRet0.auth.tokenFile).1 = true →
        wRet0.listOk = true → wRet0.createOk = true → wRet0.uploadOk = true →
        (main wRet0).exitCode = 0)) :=
  ⟨⟨by decide, by decide⟩,
    retention_nonpositive_skips_prune wRet0 0 (by decide) (by decide)⟩

/-- Claim C4 (confirmed): the archiver keeps a single intermediate artifact —
on compression success the raw dump is deleted and only the archive remains;
on compression failure both the raw dump and the partial archive are removed
before the failure is reported. -/
theorem create_single_artifact_policy (env : EnvMap) (ts : String) (fs : TempFS)
    (hh : falsy (envGet env "PGHOST") = false)
    (hu : falsy (envGet env "PGUSER") = false)
    (hp : falsy (envGet env "PGPASSWORD") = false)
    (hd : falsy (envGet env "PGDATABASE") = false) :
    ((create_postgres_backup env ts .ok true fs).1 = .ok (some (backupFileName ts)) ∧
      dumpFileName ts ∉ (create_postgres_backup env ts .ok true fs).2.1 ∧
      backupFileName ts ∈ (create_postgres_backup env ts .ok true fs).2.1) ∧
    ((create_postgres_backup env ts .ok false fs).1 = .ok none ∧
      dumpFileName ts ∉ (create_postgres_backup env ts .ok false fs).2.1 ∧
      backupFileName ts ∉ (create_postgres_backup env ts .ok false fs).2.1) := by
  have hne := backupFileName_ne_dumpFileName ts
  rw [create_ok_spec env ts fs hh hu hp hd, create_compress_fail_spec env ts fs hh hu hp hd]
  refine ⟨⟨rfl, ?_, ?_⟩, rfl, ?_, ?_⟩
  · simp [fsErase, fsAdd, List.mem_filter]
  · simp [fsErase, fsAdd, List.mem_filter, hne]
  · simp [fsErase, fsAdd, List.mem_filter]
  · simp [fsErase, fsAdd, List.mem_filter]

/-- Witness for C4 at a concrete full configuration and empty directory. -/
theorem create_single_artifact_policy_witness :
    (falsy (envGet envFull "PGHOST") = false ∧
      falsy (envGet envFull "PGUSER") = false ∧
      falsy (envGet envFull "PGPASSWORD") = false ∧
      falsy (envGet envFull "PGDATABASE") = false) ∧
    (((create_postgres_backup envFull "t" .ok true []).1 = .ok (some (backupFileName "t")) ∧
      dumpFileName "t" ∉ (create_postgres_backup envFull "t" .ok true []).2.1 ∧
      backupFileName "t" ∈ (create_postgres_backup envFull "t" .ok true []).2.1) ∧
    ((create_postgres_backup envFull "t" .ok false []).1 = .ok none ∧
      dumpFileName "t" ∉ (create_postgres_backup envFull "t" .ok false []).2.1 ∧
      backupFileName "t" ∉ (create_postgres_backup envFull "t" .ok false []).2.1)) :=
  ⟨⟨by decide, by decide, by decide, by decide⟩,
    create_single_artifact_policy envFull "t" [] (by decide) (by decide) (by decide)
      (by decide)⟩

/-- An environment with every required setting except `PGPASSWORD`. -/
def envNoPass : EnvMap :=
  [("PGHOST", "db.example"), ("PGUSER", "postgres"), ("PGDATABASE", "appdb")]

/-- The world of Scenario B: `PGPASSWORD` unset, everything else fine. -/
def wNoPass : World :=
  ⟨envNoPass, "20260101_000000", 100, .ok, true, awValid, emptyDrive,
   true, true, true, true, fun _ => true, true⟩

/-- Claim C5 counterexample: with `PGPASSWORD` unset the run does exit 1
before invoking the dump utility, but a side effect does occur before that
exit — `main` creates the temporary scratch directory (`mkdtemp`) before the
required-variable checks run — so "before any side effect occurs" is false
as stated. -/
theorem missing_required_env_counterexample :
    falsy (envGet wNoPass.env "PGPASSWORD") = true ∧
    (main wNoPass).exitCode = 1 ∧
    Event.mkTempDir ∈ (main wNoPass).events ∧
    Event.dumpInvoked ∉ (main wNoPass).events := by decide

/-- Claim C5 (amended): with any required connection variable missing or
empty — `PGHOST`, `PGUSER`, `PGPASSWORD` or `PGDATABASE` — the run exits
with status 1 before the dump utility is invoked and with no side effect
other than creating the temporary scratch directory, which cleanup then
removes: no dump invocation, no file write, no Drive call, no prune, no
interactive prompt appears in the trace. -/
theorem missing_required_env_aborts_before_dump (w : World)
    (hret : retentionOf w.env ≠ none)
    (hreq : falsy (envGet w.env "PGHOST") = true ∨
      falsy (envGet w.env "PGUSER") = true ∨
      falsy (envGet w.env "PGPASSWORD") = true ∨
      falsy (envGet w.env "PGDATABASE") = true) :
    (main w).exitCode = 1 ∧
    Event.dumpInvoked ∉ (main w).events ∧
    (∀ n, Event.fsWrite n ∉ (main w).events) ∧
    (∀ n, Event.driveUpload n ∉ (main w).events) ∧
    (∀ n, Event.driveListFolders n ∉ (main w).events) ∧
    Event.pruneList ∉ (main w).events ∧
    Event.authPromptShown ∉ (main w).events ∧
    (w.cleanupOk = true → (main w).tempDir = none) := by
  rcases hret2 : retentionOf w.env with _ | r
  · exact absurd hret2 hret
  · obtain ⟨m, hcb⟩ := create_error_of_required_falsy w.env w.timestamp w.dump
      w.compressOk [] hreq
    unfold main mainBody
    simp only [hret2, hcb]
    rcases hc : w.cleanupOk <;> simp [cleanupStep, hc]

/-- Witness for the amended C5 at the Scenario-B world. -/
theorem missing_required_env_aborts_before_dump_witness :
    (retentionOf wNoPass.env ≠ none ∧
      (falsy (envGet wNoPass.env "PGHOST") = true ∨
        falsy (envGet wNoPass.env "PGUSER") = true ∨
        falsy (envGet wNoPass.env "PGPASSWORD") = true ∨
        falsy (envGet wNoPass.env "PGDATABASE") = true)) ∧
    ((main wNoPass).exitCode = 1 ∧
      Event.dumpInvoked ∉ (main wNoPass).events ∧
      (∀ n, Event.fsWrite n ∉ (main wNoPass).events) ∧
      (∀ n, Event.driveUpload n ∉ (main wNoPass).events) ∧
      (∀ n, Event.driveListFolders n ∉ (main wNoPass).events) ∧
      Event.pruneList ∉ (main wNoPass).events ∧
      Event.authPromptShown ∉ (main wNoPass).events ∧
      (wNoPass.cleanupOk = true → (main wNoPass).tempDir = none)) :=
  ⟨⟨by decide, by decide⟩,
    missing_required_env_aborts_before_dump wNoPass (by decide) (by decide)⟩

/-- An environment carrying only a service-account key. -/
def envSA : EnvMap := [("GOOGLE_SERVICE_ACCOUNT", "sa-key")]

/-- An auth world with no stored token. -/
def awNoToken : AuthWorld := ⟨.absent, true, true, true⟩

/-- Claim C6 counterexample: `GOOGLE_SERVICE_ACCOUNT` is present, yet
authentication does not derive a service-account token — it exits with
status 1 (because `GOOGLE_CREDENTIALS` is absent and no token is stored),
so no usable Credential results. -/
theorem service_account_counterexample :
    envGet envSA "GOOGLE_SERVICE_ACCOUNT" = some "sa-key" ∧
    (authenticate_google_drive awNoToken envSA).1 = .error 1 ∧
    Event.tokenSaved ∉ (authenticate_google_drive awNoToken envSA).2 :=
  ⟨by decide, by rfl, by decide⟩

/-- Claim C6 (amended): the credential provider has no service-account
strategy; `GOOGLE_SERVICE_ACCOUNT` is ignored — the only environment input
authentication reads is `GOOGLE_CREDENTIALS`, so any two environments that
agree on `GOOGLE_CREDENTIALS` produce identical authentication results. -/
theorem authenticate_ignores_service_account (aw : AuthWorld) (e1 e2 : EnvMap)
    (h : envGet e1 "GOOGLE_CREDENTIALS" = envGet e2 "GOOGLE_CREDENTIALS") :
    authenticate_google_drive aw e1 = authenticate_google_drive aw e2 := by
  have hi : interactiveStep aw.flowOk e1 = interactiveStep aw.flowOk e2 := by
    unfold interactiveStep get_env_or_default
    rw [h]
  unfold authenticate_google_drive
  rw [hi]

/-- Witness for the amended C6: adding `GOOGLE_SERVICE_ACCOUNT` to an empty
environment does not change the authentication result. -/
theorem authenticate_ignores_service_account_witness :
    envGet envSA "GOOGLE_CREDENTIALS" = envGet ([] : EnvMap) "GOOGLE_CREDENTIALS" ∧
    authenticate_google_drive awNoToken envSA = authenticate_google_drive awNoToken [] :=
  ⟨by decide, authenticate_ignores_service_account awNoToken envSA [] (by decide)⟩

/-- A fully-working world whose environment also sets `SHARE_EMAIL`. -/
def wShare : World :=
  ⟨("SHARE_EMAIL", "ops@example.com") :: envFull, "20260101_000000", 100, .ok, true,
   awValid, emptyDrive, true, true, true, true, fun _ => true, true⟩

/-- Claim C7 counterexample: `SHARE_EMAIL` is configured and the upload
succeeds (exit 0), yet no share grant is ever issued — there is no share
step in the program. -/
theorem share_step_counterexample :
    envGet wShare.env "SHARE_EMAIL" = some "ops@example.com" ∧
    (main wShare).exitCode = 0 ∧
    Event.driveShare "ops@example.com" ∉ (main wShare).events := by decide

/-- Claim C7 (amended): the program has no share step at all — no run ever
issues a share call, for any principal, whether or not `SHARE_EMAIL` is set —
while an otherwise-successful run still exits 0. -/
theorem no_share_step (w : World) :
    (∀ e, Event.driveShare e ∉ (main w).events) ∧
    (∀ r, retentionOf w.env = some r →
      falsy (envGet w.env "PGHOST") = false → falsy (envGet w.env "PGUSER") = false →
      falsy (envGet w.env "PGPASSWORD") = false →
      falsy (envGet w.env "PGDATABASE") = false →
      w.dump = .ok → w.compressOk = true →
      credValid (loadTokenFile w.auth.tokenFile).1 = true →
      w.listOk = true → w.createOk = true → w.uploadOk = true →
      (main w).exitCode = 0) := by
  constructor
  · intro e hmem
    have := main_events_all w
      (fun ev => match ev with | Event.driveShare _ => false | _ => true)
      rfl rfl (fun _ => rfl) (fun _ => rfl) rfl (fun _ => rfl) (fun _ => rfl) rfl rfl rfl
      (fun _ => rfl) (fun _ => rfl) (fun _ => rfl) (fun _ _ _ => ⟨rfl, fun _ => rfl⟩)
      _ hmem
    simp at this
  · intro r hr h1 h2 h3 h4 h5 h6 h7 h8 h9 h10
    exact main_exit0 w r hr h1 h2 h3 h4 h5 h6 h7 h8 h9 h10

/-- Witness for the amended C7 at the all-success world. -/
theorem no_share_step_witness :
    (∀ e, Event.driveShare e ∉ (main wSuccess).events) ∧
    (main wSuccess).exitCode = 0 :=
  ⟨(no_share_step wSuccess).1,
    (no_share_step wSuccess).2 7 (by decide) (by decide) (by decide) (by decide)
      (by decide) rfl rfl (by decide) rfl rfl rfl⟩

/-- Claim C8 (confirmed): with a stored token that is expired but carries a
refresh token, a successful refresh completes authentication with no
interactive prompt and no console input, and the updated token is persisted
(when the save itself succeeds, which the claim's scenario assumes). -/
theorem auth_refresh_no_prompt (aw : AuthWorld) (env : EnvMap) (c : StoredCreds)
    (ht : aw.tokenFile = .stored c) (hv : c.valid = false) (hex : c.expired = true)
    (hrt : c.hasRefreshToken = true) (hro : aw.refreshOk = true)
    (hsv : aw.tokenSaveOk = true) :
    (authenticate_google_drive aw env).1 = .ok ⟨true, false, true⟩ ∧
    Event.authPromptShown ∉ (authenticate_google_drive aw env).2 ∧
    Event.authInputRead ∉ (authenticate_google_drive aw env).2 ∧
    Event.tokenSaved ∈ (authenticate_google_drive aw env).2 := by
  unfold authenticate_google_drive
  simp [loadTokenFile, ht, credValid, hv, refreshStep, hex, hrt, hro, refreshedCreds,
    saveTokenStep, hsv]

/-- The stored-token world of Scenario D: expired token, refresh succeeds. -/
def awExpired : AuthWorld := ⟨.stored ⟨false, true, true⟩, true, true, true⟩

/-- Witness for C8 at the Scenario-D auth world. -/
theorem auth_refresh_no_prompt_witness :
    (awExpired.tokenFile = .stored ⟨false, true, true⟩ ∧
      (false : Bool) = false ∧ (true : Bool) = true ∧ (true : Bool) = true ∧
      awExpired.refreshOk = true ∧ awExpired.tokenSaveOk = true) ∧
    ((authenticate_google_drive awExpired []).1 = .ok ⟨true, false, true⟩ ∧
      Event.authPromptShown ∉ (authenticate_google_drive awExpired []).2 ∧
      Event.authInputRead ∉ (authenticate_google_drive awExpired []).2 ∧
      Event.tokenSaved ∈ (authenticate_google_drive awExpired []).2) :=
  ⟨⟨rfl, rfl, rfl, rfl, rfl, rfl⟩,
    auth_refresh_no_prompt awExpired [] ⟨false, true, true⟩ rfl rfl rfl rfl rfl rfl⟩

/-- Claim C9 (confirmed): folder lookup queries by exact name among
non-trashed folder-type items, returns the first match's identifier when one
exists (leaving the store unchanged), creates the folder only when none
exists, and is idempotent: a second call with the same name and no
intervening change returns the same identifier and the same store. -/
theorem get_or_create_folder_idem (s : DriveState) (t1 t2 : Int) (name : String) :
    ∃ fid s2,
      (get_or_create_folder true true s t1 name).1 = .ok (fid, s2) ∧
      (get_or_create_folder true true s2 t2 name).1 = .ok (fid, s2) ∧
      (∀ f rest, folderQuery s name = f :: rest → fid = f.id ∧ s2 = s) ∧
      (folderQuery s name = [] →
        s2.files = s.files ++ [⟨fid, name, folderMime, false, t1, []⟩]) := by
  rcases hq : folderQuery s name with _ | ⟨f0, rest⟩
  · refine ⟨freshId s.nextId,
      ⟨s.files ++ [⟨freshId s.nextId, name, folderMime, false, t1, []⟩], s.nextId + 1⟩,
      ?_, ?_, ?_, ?_⟩
    · simp [get_or_create_folder, hq]
    · have hq2 : folderQuery
          (⟨s.files ++ [⟨freshId s.nextId, name, folderMime, false, t1, []⟩],
            s.nextId + 1⟩ : DriveState) name
          = [⟨freshId s.nextId, name, folderMime, false, t1, []⟩] := by
        unfold folderQuery at hq ⊢
        simp [List.filter_append, hq]
      simp [get_or_create_folder, hq2]
    · intro f rest h; cases h
    · intro _; rfl
  · refine ⟨f0.id, s, ?_, ?_, ?_, ?_⟩
    · simp [get_or_create_folder, hq]
    · simp [get_or_create_folder, hq]
    · intro f rest2 h
      injection h with h1 h2
      exact ⟨by rw [h1], rfl⟩
    · intro h; cases h

end PgBackup

